import Mathlib

/-!
Shallow embedding of the `moes-tavern` task-escrow core:
`packages/contracts/contracts/TaskMarket.sol` and
`packages/contracts/contracts/DisputeModule.sol`.

A single task is modelled as a record mirroring the Solidity `Task` struct.
Each external function of the contracts becomes a pure Lean function from the
call environment (caller, timestamp, registry lookups) and the task to
`Except String StepOut`, where `StepOut` carries the updated task together
with the payment-token amounts pulled in and pushed out by the call.
Machine integers are modelled as `Nat`; the contracts use `uint256`
arithmetic whose only non-trivial operations here (bond floor division,
checked subtraction guarded by explicit comparisons) stay far below `2^256`,
so no wraparound is reachable in the modelled paths.
-/

namespace MoesTavern

/-- Account addresses; `0` is the zero address. -/
abbrev Address := Nat

inductive TaskStatus where
  | OPEN
  | QUOTED
  | ACTIVE
  | SUBMITTED
  | DISPUTED
  | SETTLED
  | CANCELLED
deriving DecidableEq, Repr

inductive DisputeOutcome where
  | SELLER_WINS
  | BUYER_WINS
  | SPLIT
  | CANCEL
deriving DecidableEq, Repr

inductive SettlementPath where
  | ACCEPTED
  | TIMEOUT
  | POST_DISPUTE_TIMEOUT
  | DISPUTE_SELLER_WINS
  | DISPUTE_BUYER_WINS
  | DISPUTE_SPLIT
  | DISPUTE_CANCEL
deriving DecidableEq, Repr

/-- `IListingRegistry.Pricing` (immutable after listing creation). -/
structure Pricing where
  paymentToken : Address
  basePrice : Nat
  unitType : Nat
  unitPrice : Nat
  minUnits : Nat
  maxUnits : Nat
  quoteRequired : Bool
deriving DecidableEq, Repr

/-- `IListingRegistry.Policy` (immutable after listing creation). -/
structure Policy where
  challengeWindowSec : Nat
  postDisputeWindowSec : Nat
  deliveryWindowSec : Nat
  sellerBondBps : Nat
deriving DecidableEq, Repr

/-- The `Task` struct of `TaskMarket.sol`. -/
structure Task where
  id : Nat
  listingId : Nat
  agentId : Nat
  buyer : Address
  seller : Address
  paymentToken : Address
  taskURI : String
  proposedUnits : Nat
  quotedUnits : Nat
  quotedTotalPrice : Nat
  quoteExpiry : Nat
  fundedAmount : Nat
  sellerBond : Nat
  bondFunder : Address
  artifactURI : String
  artifactHash : Nat
  activatedAt : Nat
  submittedAt : Nat
  disputedAt : Nat
  status : TaskStatus
  settled : Bool
deriving DecidableEq, Repr

/--
Per-call environment: `msg.sender`, `block.timestamp`, and the values the
market reads from its collaborators during the call (`identityRegistry`
ownership/authorization and the listing `active` flag), plus the
dispute-module-side state consulted by `disputeSubmission`/`openDispute`.
-/
structure CallEnv where
  caller : Address
  timestamp : Nat
  agentOwner : Address
  agentAuthorized : Bool
  listingActive : Bool
  callerIsDisputeModule : Bool
  disputeModuleSet : Bool
  recordOpened : Bool
  callerIsMarket : Bool
deriving DecidableEq, Repr

/--
Result of a successful call: the updated task, the amount of `paymentToken`
pulled into the market (`_safeTransferInExact`), and the outbound
`safeTransfer` calls in program order as (recipient, amount) pairs.
-/
structure StepOut where
  task : Task
  tokensIn : Nat
  tokensOut : List (Address × Nat)
deriving DecidableEq, Repr

/-- `DisputeModule.MAX_URI_LENGTH`. -/
def MAX_URI_LENGTH : Nat := 2048

/-- An outbound transfer guarded by the source's skip-if-zero check. -/
def condOut (a : Address) (n : Nat) : List (Address × Nat) :=
  if n = 0 then [] else [(a, n)]

/-- Total amount of a list of outbound transfers. -/
def outSum (l : List (Address × Nat)) : Nat :=
  l.foldr (fun p acc => p.2 + acc) 0

/-- `TaskMarket._requiredSellerBond`. -/
def requiredSellerBond (policy : Policy) (t : Task) : Nat :=
  if policy.sellerBondBps = 0 then 0
  else t.quotedTotalPrice * policy.sellerBondBps / 10000

/-- `TaskMarket.postTask`: creates a fresh task in `OPEN`. -/
def postTask (env : CallEnv) (pricing : Pricing) (taskId listingId agentId : Nat)
    (taskURI : String) (proposedUnits : Nat) : Except String Task :=
  if ¬ env.listingActive then .error "TaskMarket: listing inactive"
  else if proposedUnits < pricing.minUnits ∨ proposedUnits > pricing.maxUnits then
    .error "TaskMarket: units out of range"
  else if pricing.paymentToken = 0 then .error "TaskMarket: payment token required"
  else .ok
    { id := taskId
      listingId := listingId
      agentId := agentId
      buyer := env.caller
      seller := 0
      paymentToken := pricing.paymentToken
      taskURI := taskURI
      proposedUnits := proposedUnits
      quotedUnits := 0
      quotedTotalPrice := 0
      quoteExpiry := 0
      fundedAmount := 0
      sellerBond := 0
      bondFunder := 0
      artifactURI := ""
      artifactHash := 0
      activatedAt := 0
      submittedAt := 0
      disputedAt := 0
      status := TaskStatus.OPEN
      settled := false }

/-- `TaskMarket.proposeQuote`. -/
def proposeQuote (env : CallEnv) (pricing : Pricing) (t : Task)
    (quotedUnits quotedTotalPrice expiry : Nat) : Except String StepOut :=
  if t.status ≠ TaskStatus.OPEN then .error "TaskMarket: not open"
  else if ¬ env.agentAuthorized then .error "TaskMarket: not authorized"
  else if ¬ env.listingActive then .error "TaskMarket: listing inactive"
  else if quotedUnits = 0 ∨ quotedUnits < pricing.minUnits ∨ quotedUnits > pricing.maxUnits then
    .error "TaskMarket: invalid quote"
  else .ok ⟨{ t with
              quotedUnits := quotedUnits
              quotedTotalPrice := quotedTotalPrice
              quoteExpiry := expiry
              status := TaskStatus.QUOTED }, 0, []⟩

/-- `TaskMarket.acceptQuote`: snapshots `seller := ownerOf(agentId)`. -/
def acceptQuote (env : CallEnv) (policy : Policy) (t : Task) : Except String StepOut :=
  if t.status ≠ TaskStatus.QUOTED then .error "TaskMarket: not quoted"
  else if t.buyer ≠ env.caller then .error "TaskMarket: buyer only"
  else if t.fundedAmount = 0 ∨ t.fundedAmount ≠ t.quotedTotalPrice then
    .error "TaskMarket: not funded"
  else if requiredSellerBond policy t ≠ 0 ∧ t.sellerBond ≠ requiredSellerBond policy t then
    .error "TaskMarket: bond not funded"
  else .ok ⟨{ t with
              seller := env.agentOwner
              status := TaskStatus.ACTIVE
              activatedAt := env.timestamp }, 0, []⟩

/-- `TaskMarket.fundSellerBond`. -/
def fundSellerBond (env : CallEnv) (policy : Policy) (t : Task) (amount : Nat) :
    Except String StepOut :=
  if t.status ≠ TaskStatus.QUOTED then .error "TaskMarket: not quoted"
  else if ¬ env.agentAuthorized then .error "TaskMarket: not authorized"
  else if requiredSellerBond policy t = 0 then .error "TaskMarket: bond disabled"
  else if t.sellerBond ≠ 0 then .error "TaskMarket: bond already funded"
  else if amount ≠ requiredSellerBond policy t then .error "TaskMarket: bond amount mismatch"
  else .ok ⟨{ t with sellerBond := amount, bondFunder := env.caller }, amount, []⟩

/-- `TaskMarket.sellerCancelQuote`. -/
def sellerCancelQuote (env : CallEnv) (t : Task) : Except String StepOut :=
  if t.status ≠ TaskStatus.QUOTED then .error "TaskMarket: not quoted"
  else if t.fundedAmount ≠ 0 then .error "TaskMarket: task funded"
  else if ¬ env.agentAuthorized then .error "TaskMarket: not authorized"
  else .ok ⟨{ t with
              sellerBond := 0
              quotedUnits := 0
              quotedTotalPrice := 0
              quoteExpiry := 0
              status := TaskStatus.CANCELLED }, 0,
            condOut t.bondFunder t.sellerBond⟩

/-- `TaskMarket.fundTask`. -/
def fundTask (env : CallEnv) (policy : Policy) (t : Task) (amount : Nat) :
    Except String StepOut :=
  if t.buyer ≠ env.caller then .error "TaskMarket: buyer only"
  else if t.status ≠ TaskStatus.QUOTED then .error "TaskMarket: not quoted"
  else if amount = 0 then .error "TaskMarket: amount zero"
  else if t.fundedAmount ≠ 0 then .error "TaskMarket: already funded"
  else if t.quotedTotalPrice = 0 ∨ amount ≠ t.quotedTotalPrice then
    .error "TaskMarket: amount mismatch"
  else if requiredSellerBond policy t ≠ 0 ∧ t.sellerBond ≠ requiredSellerBond policy t then
    .error "TaskMarket: bond not funded"
  else if t.quoteExpiry ≠ 0 ∧ env.timestamp > t.quoteExpiry then
    .error "TaskMarket: quote expired"
  else .ok ⟨{ t with fundedAmount := amount }, amount, []⟩

/-- `TaskMarket.acceptTask` (implicit quote from listing pricing). -/
def acceptTask (env : CallEnv) (pricing : Pricing) (t : Task) : Except String StepOut :=
  if t.status ≠ TaskStatus.OPEN then .error "TaskMarket: not open"
  else if ¬ env.agentAuthorized then .error "TaskMarket: not authorized"
  else if ¬ env.listingActive then .error "TaskMarket: listing inactive"
  else if pricing.quoteRequired then .error "TaskMarket: quote required"
  else .ok ⟨{ t with
              quotedUnits := t.proposedUnits
              quotedTotalPrice := pricing.basePrice + t.proposedUnits * pricing.unitPrice
              status := TaskStatus.QUOTED }, 0, []⟩

/-- `TaskMarket.submitDeliverable`: gated by the snapshotted `seller`. -/
def submitDeliverable (env : CallEnv) (t : Task) (artifactURI : String)
    (artifactHash : Nat) : Except String StepOut :=
  if t.status ≠ TaskStatus.ACTIVE then .error "TaskMarket: not active"
  else if env.caller ≠ t.seller then .error "TaskMarket: seller only"
  else if t.fundedAmount = 0 then .error "TaskMarket: not funded"
  else .ok ⟨{ t with
              artifactURI := artifactURI
              artifactHash := artifactHash
              submittedAt := env.timestamp
              status := TaskStatus.SUBMITTED }, 0, []⟩

/-- `TaskMarket._settleWithPayouts`. -/
def settleWithPayouts (t : Task) (buyerEscrowPayout buyerBondPayout : Nat)
    (path : SettlementPath) : Except String StepOut :=
  if t.settled then .error "TaskMarket: already settled"
  else if buyerEscrowPayout > t.fundedAmount then
    .error "TaskMarket: buyer payout exceeds escrow"
  else if buyerBondPayout > t.sellerBond then
    .error "TaskMarket: buyer payout exceeds bond"
  else
    let _ := path
    let sellerEscrowPayout := t.fundedAmount - buyerEscrowPayout
    let sellerBondRefund := t.sellerBond - buyerBondPayout
    let buyerTotal := buyerEscrowPayout + buyerBondPayout
    .ok ⟨{ t with settled := true, status := TaskStatus.SETTLED }, 0,
         condOut t.buyer buyerTotal ++ condOut t.seller sellerEscrowPayout ++
         condOut t.bondFunder sellerBondRefund⟩

/-- `TaskMarket.acceptSubmission`. -/
def acceptSubmission (env : CallEnv) (t : Task) : Except String StepOut :=
  if t.status ≠ TaskStatus.SUBMITTED then .error "TaskMarket: not submitted"
  else if t.buyer ≠ env.caller then .error "TaskMarket: buyer only"
  else settleWithPayouts t 0 0 SettlementPath.ACCEPTED

/-- `TaskMarket.settleAfterTimeout` (permissionless). -/
def settleAfterTimeout (env : CallEnv) (policy : Policy) (t : Task) :
    Except String StepOut :=
  if t.status ≠ TaskStatus.SUBMITTED then .error "TaskMarket: not submitted"
  else if env.timestamp < t.submittedAt + policy.challengeWindowSec then
    .error "TaskMarket: challenge window"
  else settleWithPayouts t 0 0 SettlementPath.TIMEOUT

/-- `TaskMarket.settleAfterPostDisputeTimeout` (permissionless). -/
def settleAfterPostDisputeTimeout (env : CallEnv) (policy : Policy) (t : Task) :
    Except String StepOut :=
  if t.status ≠ TaskStatus.DISPUTED then .error "TaskMarket: not disputed"
  else if policy.postDisputeWindowSec = 0 then
    .error "TaskMarket: post-dispute timeout disabled"
  else if env.timestamp < t.disputedAt + policy.postDisputeWindowSec then
    .error "TaskMarket: post-dispute window"
  else settleWithPayouts t 0 0 SettlementPath.POST_DISPUTE_TIMEOUT

/-- `TaskMarket.markDisputed` (dispute module only). -/
def markDisputed (env : CallEnv) (t : Task) : Except String StepOut :=
  if ¬ env.callerIsDisputeModule then .error "TaskMarket: dispute module only"
  else if t.status ≠ TaskStatus.SUBMITTED then .error "TaskMarket: not submitted"
  else .ok ⟨{ t with disputedAt := env.timestamp, status := TaskStatus.DISPUTED }, 0, []⟩

/-- `TaskMarket.resolveDispute` (dispute module only). -/
def resolveDispute (env : CallEnv) (t : Task) (outcome : DisputeOutcome) :
    Except String StepOut :=
  if ¬ env.callerIsDisputeModule then .error "TaskMarket: dispute module only"
  else if t.status ≠ TaskStatus.DISPUTED then .error "TaskMarket: not disputed"
  else
    match outcome with
    | DisputeOutcome.SELLER_WINS =>
        settleWithPayouts t 0 0 SettlementPath.DISPUTE_SELLER_WINS
    | DisputeOutcome.BUYER_WINS =>
        settleWithPayouts t t.fundedAmount t.sellerBond SettlementPath.DISPUTE_BUYER_WINS
    | DisputeOutcome.SPLIT =>
        settleWithPayouts t (t.fundedAmount / 2) 0 SettlementPath.DISPUTE_SPLIT
    | DisputeOutcome.CANCEL =>
        settleWithPayouts t t.fundedAmount 0 SettlementPath.DISPUTE_CANCEL

/-- `TaskMarket.cancelTask` (buyer, pre-activation). -/
def cancelTask (env : CallEnv) (t : Task) : Except String StepOut :=
  if t.buyer ≠ env.caller then .error "TaskMarket: buyer only"
  else if t.status ≠ TaskStatus.OPEN ∧ t.status ≠ TaskStatus.QUOTED then
    .error "TaskMarket: cannot cancel"
  else .ok ⟨{ t with status := TaskStatus.CANCELLED, fundedAmount := 0, sellerBond := 0 },
            0, condOut t.buyer t.fundedAmount ++ condOut t.bondFunder t.sellerBond⟩

/-- `TaskMarket.cancelForNonDelivery` (buyer, after the delivery window). -/
def cancelForNonDelivery (env : CallEnv) (policy : Policy) (t : Task) :
    Except String StepOut :=
  if t.buyer ≠ env.caller then .error "TaskMarket: buyer only"
  else if t.status ≠ TaskStatus.ACTIVE then .error "TaskMarket: not active"
  else if t.fundedAmount = 0 then .error "TaskMarket: not funded"
  else if t.submittedAt ≠ 0 then .error "TaskMarket: already submitted"
  else if env.timestamp < t.activatedAt + policy.deliveryWindowSec then
    .error "TaskMarket: delivery window"
  else .ok ⟨{ t with
              fundedAmount := 0
              sellerBond := 0
              status := TaskStatus.CANCELLED
              settled := true }, 0,
            [(t.buyer, t.fundedAmount + t.sellerBond)]⟩

/-- `DisputeModule.openDispute`; on success it calls back `markDisputed`. -/
def openDispute (env : CallEnv) (policy : Policy) (t : Task) (disputeURI : String) :
    Except String StepOut :=
  if disputeURI.utf8ByteSize > MAX_URI_LENGTH then .error "DisputeModule: URI too long"
  else if env.recordOpened then .error "DisputeModule: already opened"
  else if t.status ≠ TaskStatus.SUBMITTED then .error "DisputeModule: not submitted"
  else if ¬ env.callerIsMarket ∧ t.buyer ≠ env.caller then .error "DisputeModule: buyer only"
  else if env.timestamp ≥ t.submittedAt + policy.challengeWindowSec then
    .error "DisputeModule: challenge window expired"
  else markDisputed { env with callerIsDisputeModule := true } t

/-- `TaskMarket.disputeSubmission`: delegates to `DisputeModule.openDispute`. -/
def disputeSubmission (env : CallEnv) (policy : Policy) (t : Task) (disputeURI : String) :
    Except String StepOut :=
  if ¬ env.disputeModuleSet then .error "TaskMarket: dispute module unset"
  else if t.status ≠ TaskStatus.SUBMITTED then .error "TaskMarket: not submitted"
  else if t.buyer ≠ env.caller then .error "TaskMarket: buyer only"
  else openDispute { env with callerIsMarket := true } policy t disputeURI

/-- The mutating market transitions on an existing task. -/
inductive Call where
  | proposeQuote (quotedUnits quotedTotalPrice expiry : Nat)
  | acceptTask
  | fundSellerBond (amount : Nat)
  | fundTask (amount : Nat)
  | acceptQuote
  | sellerCancelQuote
  | submitDeliverable (artifactURI : String) (artifactHash : Nat)
  | acceptSubmission
  | disputeSubmission (disputeURI : String)
  | settleAfterTimeout
  | markDisputed
  | resolveDispute (outcome : DisputeOutcome)
  | settleAfterPostDisputeTimeout
  | cancelTask
  | cancelForNonDelivery
deriving DecidableEq, Repr

/-- Dispatch a call to the corresponding contract function. -/
def step (pricing : Pricing) (policy : Policy) (env : CallEnv) (c : Call) (t : Task) :
    Except String StepOut :=
  match c with
  | Call.proposeQuote qu qp ex => proposeQuote env pricing t qu qp ex
  | Call.acceptTask => acceptTask env pricing t
  | Call.fundSellerBond amount => fundSellerBond env policy t amount
  | Call.fundTask amount => fundTask env policy t amount
  | Call.acceptQuote => acceptQuote env policy t
  | Call.sellerCancelQuote => sellerCancelQuote env t
  | Call.submitDeliverable uri h => submitDeliverable env t uri h
  | Call.acceptSubmission => acceptSubmission env t
  | Call.disputeSubmission uri => disputeSubmission env policy t uri
  | Call.settleAfterTimeout => settleAfterTimeout env policy t
  | Call.markDisputed => markDisputed env t
  | Call.resolveDispute oc => resolveDispute env t oc
  | Call.settleAfterPostDisputeTimeout => settleAfterPostDisputeTimeout env policy t
  | Call.cancelTask => cancelTask env t
  | Call.cancelForNonDelivery => cancelForNonDelivery env policy t

/--
Tokens the market still holds in custody for a task: the escrow plus the
bond while the task is live, nothing once it is terminal (every terminal
transition either pays the pools out or zeroes them).
-/
def marketHolds (t : Task) : Nat :=
  if t.status = TaskStatus.SETTLED ∨ t.status = TaskStatus.CANCELLED then 0
  else t.fundedAmount + t.sellerBond

/--
`Reaches pricing policy t₀ t tin tout`: task state `t` is reachable from
`t₀` by a sequence of successful calls (issued by non-zero senders, as on
chain), which in total pulled `tin` tokens in and pushed `tout` tokens out.
-/
inductive Reaches (pricing : Pricing) (policy : Policy) :
    Task → Task → Nat → Nat → Prop where
  | refl (t : Task) : Reaches pricing policy t t 0 0
  | call {t₀ t₁ : Task} {tin tout : Nat} (env : CallEnv) (c : Call) (out : StepOut)
      (prev : Reaches pricing policy t₀ t₁ tin tout)
      (hcaller : env.caller ≠ 0)
      (hstep : step pricing policy env c t₁ = .ok out) :
      Reaches pricing policy t₀ out.task (tin + out.tokensIn) (tout + outSum out.tokensOut)

/--
Inductive state invariant of a task, established by `postTask` and
preserved by every successful transition.
-/
def Inv (policy : Policy) (t : Task) : Prop :=
  (t.settled = true → t.status = TaskStatus.SETTLED ∨ t.status = TaskStatus.CANCELLED)
  ∧ (t.status = TaskStatus.OPEN → t.fundedAmount = 0 ∧ t.sellerBond = 0)
  ∧ (t.status = TaskStatus.QUOTED →
      (t.fundedAmount = 0 ∨ t.fundedAmount = t.quotedTotalPrice)
      ∧ (t.sellerBond = 0 ∨
          (t.sellerBond = requiredSellerBond policy t
            ∧ requiredSellerBond policy t ≠ 0 ∧ t.bondFunder ≠ 0)))
  ∧ ((t.status = TaskStatus.ACTIVE ∨ t.status = TaskStatus.SUBMITTED
        ∨ t.status = TaskStatus.DISPUTED) →
      t.fundedAmount = t.quotedTotalPrice ∧ t.fundedAmount ≠ 0
      ∧ t.sellerBond = requiredSellerBond policy t
      ∧ (t.sellerBond ≠ 0 → t.bondFunder ≠ 0))

theorem outSum_append (a b : List (Address × Nat)) :
    outSum (a ++ b) = outSum a + outSum b := by
  induction a with
  | nil => simp [outSum]
  | cons x xs ih =>
    simp only [outSum, List.foldr_cons, List.cons_append] at *
    omega

theorem outSum_condOut (a : Address) (n : Nat) : outSum (condOut a n) = n := by
  unfold condOut
  split <;> simp_all [outSum]

theorem outSum_nil : outSum [] = 0 := rfl

theorem outSum_single (a : Address) (n : Nat) : outSum [(a, n)] = n := by
  simp [outSum]

/-- The successful result of `_settleWithPayouts`. -/
def settleOut (t : Task) (bE bB : Nat) : StepOut :=
  ⟨{ t with settled := true, status := TaskStatus.SETTLED }, 0,
   condOut t.buyer (bE + bB) ++ condOut t.seller (t.fundedAmount - bE) ++
   condOut t.bondFunder (t.sellerBond - bB)⟩

theorem settleWithPayouts_ok {t : Task} {bE bB : Nat} {p : SettlementPath} {out : StepOut}
    (h : settleWithPayouts t bE bB p = .ok out) :
    t.settled = false ∧ bE ≤ t.fundedAmount ∧ bB ≤ t.sellerBond ∧ out = settleOut t bE bB := by
  unfold settleWithPayouts at h
  split_ifs at h with h1 h2 h3
  simp only [Except.ok.injEq] at h
  exact ⟨by simp_all, by omega, by omega, h.symm⟩

theorem settleWithPayouts_success (t : Task) (bE bB : Nat) (p : SettlementPath)
    (hs : t.settled = false) (h1 : bE ≤ t.fundedAmount) (h2 : bB ≤ t.sellerBond) :
    settleWithPayouts t bE bB p = .ok (settleOut t bE bB) := by
  unfold settleWithPayouts settleOut
  split_ifs with g1 g2 g3
  · simp_all
  · omega
  · omega
  · rfl

theorem proposeQuote_ok {env : CallEnv} {pricing : Pricing} {t : Task}
    {qu qp ex : Nat} {out : StepOut}
    (h : proposeQuote env pricing t qu qp ex = .ok out) :
    t.status = TaskStatus.OPEN ∧
      out = ⟨{ t with
               quotedUnits := qu
               quotedTotalPrice := qp
               quoteExpiry := ex
               status := TaskStatus.QUOTED }, 0, []⟩ := by
  unfold proposeQuote at h
  split_ifs at h with h1 h2 h3 h4
  simp only [Except.ok.injEq] at h
  exact ⟨by simp_all, h.symm⟩

theorem acceptTask_ok {env : CallEnv} {pricing : Pricing} {t : Task} {out : StepOut}
    (h : acceptTask env pricing t = .ok out) :
    t.status = TaskStatus.OPEN ∧
      out = ⟨{ t with
               quotedUnits := t.proposedUnits
               quotedTotalPrice := pricing.basePrice + t.proposedUnits * pricing.unitPrice
               status := TaskStatus.QUOTED }, 0, []⟩ := by
  unfold acceptTask at h
  split_ifs at h with h1 h2 h3 h4
  simp only [Except.ok.injEq] at h
  exact ⟨by simp_all, h.symm⟩

theorem fundSellerBond_ok {env : CallEnv} {policy : Policy} {t : Task}
    {amount : Nat} {out : StepOut}
    (h : fundSellerBond env policy t amount = .ok out) :
    t.status = TaskStatus.QUOTED ∧ requiredSellerBond policy t ≠ 0 ∧
      t.sellerBond = 0 ∧ amount = requiredSellerBond policy t ∧
      out = ⟨{ t with sellerBond := amount, bondFunder := env.caller }, amount, []⟩ := by
  unfold fundSellerBond at h
  split_ifs at h with h1 h2 h3 h4 h5
  simp only [Except.ok.injEq] at h
  exact ⟨by simp_all, h3, by simp_all, by simp_all, h.symm⟩

theorem fundTask_ok {env : CallEnv} {policy : Policy} {t : Task}
    {amount : Nat} {out : StepOut}
    (h : fundTask env policy t amount = .ok out) :
    t.buyer = env.caller ∧ t.status = TaskStatus.QUOTED ∧ amount ≠ 0 ∧
      t.fundedAmount = 0 ∧ amount = t.quotedTotalPrice ∧
      out = ⟨{ t with fundedAmount := amount }, amount, []⟩ := by
  unfold fundTask at h
  split_ifs at h with h1 h2 h3 h4 h5 h6 h7
  simp only [Except.ok.injEq] at h
  push_neg at h5
  exact ⟨by simp_all, by simp_all, h3, by simp_all, h5.2, h.symm⟩

theorem acceptQuote_ok {env : CallEnv} {policy : Policy} {t : Task} {out : StepOut}
    (h : acceptQuote env policy t = .ok out) :
    t.status = TaskStatus.QUOTED ∧ t.buyer = env.caller ∧
      t.fundedAmount ≠ 0 ∧ t.fundedAmount = t.quotedTotalPrice ∧
      (requiredSellerBond policy t ≠ 0 → t.sellerBond = requiredSellerBond policy t) ∧
      out = ⟨{ t with
               seller := env.agentOwner
               status := TaskStatus.ACTIVE
               activatedAt := env.timestamp }, 0, []⟩ := by
  unfold acceptQuote at h
  split_ifs at h with h1 h2 h3 h4
  simp only [Except.ok.injEq] at h
  push_neg at h3 h4
  exact ⟨by simp_all, by simp_all, h3.1, h3.2, fun hb => h4 hb, h.symm⟩

theorem sellerCancelQuote_ok {env : CallEnv} {t : Task} {out : StepOut}
    (h : sellerCancelQuote env t = .ok out) :
    t.status = TaskStatus.QUOTED ∧ t.fundedAmount = 0 ∧
      out = ⟨{ t with
               sellerBond := 0
               quotedUnits := 0
               quotedTotalPrice := 0
               quoteExpiry := 0
               status := TaskStatus.CANCELLED }, 0,
             condOut t.bondFunder t.sellerBond⟩ := by
  unfold sellerCancelQuote at h
  split_ifs at h with h1 h2 h3
  simp only [Except.ok.injEq] at h
  exact ⟨by simp_all, by simp_all, h.symm⟩

theorem submitDeliverable_ok {env : CallEnv} {t : Task} {uri : String}
    {hash : Nat} {out : StepOut}
    (h : submitDeliverable env t uri hash = .ok out) :
    t.status = TaskStatus.ACTIVE ∧ env.caller = t.seller ∧ t.fundedAmount ≠ 0 ∧
      out = ⟨{ t with
               artifactURI := uri
               artifactHash := hash
               submittedAt := env.timestamp
               status := TaskStatus.SUBMITTED }, 0, []⟩ := by
  unfold submitDeliverable at h
  split_ifs at h with h1 h2 h3
  simp only [Except.ok.injEq] at h
  exact ⟨by simp_all, by simp_all, h3, h.symm⟩

theorem acceptSubmission_ok {env : CallEnv} {t : Task} {out : StepOut}
    (h : acceptSubmission env t = .ok out) :
    t.status = TaskStatus.SUBMITTED ∧ t.buyer = env.caller ∧
      t.settled = false ∧ out = settleOut t 0 0 := by
  unfold acceptSubmission at h
  split_ifs at h with h1 h2
  have hs := settleWithPayouts_ok h
  exact ⟨by simp_all, by simp_all, hs.1, hs.2.2.2⟩

theorem settleAfterTimeout_ok {env : CallEnv} {policy : Policy} {t : Task} {out : StepOut}
    (h : settleAfterTimeout env policy t = .ok out) :
    t.status = TaskStatus.SUBMITTED ∧
      env.timestamp ≥ t.submittedAt + policy.challengeWindowSec ∧
      t.settled = false ∧ out = settleOut t 0 0 := by
  unfold settleAfterTimeout at h
  split_ifs at h with h1 h2
  have hs := settleWithPayouts_ok h
  exact ⟨by simp_all, by omega, hs.1, hs.2.2.2⟩

theorem settleAfterPostDisputeTimeout_ok {env : CallEnv} {policy : Policy}
    {t : Task} {out : StepOut}
    (h : settleAfterPostDisputeTimeout env policy t = .ok out) :
    t.status = TaskStatus.DISPUTED ∧ policy.postDisputeWindowSec ≠ 0 ∧
      env.timestamp ≥ t.disputedAt + policy.postDisputeWindowSec ∧
      t.settled = false ∧ out = settleOut t 0 0 := by
  unfold settleAfterPostDisputeTimeout at h
  split_ifs at h with h1 h2 h3
  have hs := settleWithPayouts_ok h
  exact ⟨by simp_all, h2, by omega, hs.1, hs.2.2.2⟩

theorem markDisputed_ok {env : CallEnv} {t : Task} {out : StepOut}
    (h : markDisputed env t = .ok out) :
    env.callerIsDisputeModule = true ∧ t.status = TaskStatus.SUBMITTED ∧
      out = ⟨{ t with disputedAt := env.timestamp, status := TaskStatus.DISPUTED }, 0, []⟩ := by
  unfold markDisputed at h
  split_ifs at h with h1 h2
  simp only [Except.ok.injEq] at h
  exact ⟨by simp_all, by simp_all, h.symm⟩

theorem resolveDispute_ok {env : CallEnv} {t : Task} {oc : DisputeOutcome} {out : StepOut}
    (h : resolveDispute env t oc = .ok out) :
    env.callerIsDisputeModule = true ∧ t.status = TaskStatus.DISPUTED ∧
      t.settled = false ∧
      ∃ bE bB, bE ≤ t.fundedAmount ∧ bB ≤ t.sellerBond ∧ out = settleOut t bE bB := by
  unfold resolveDispute at h
  split_ifs at h with h1 h2
  cases oc <;>
    · have hs := settleWithPayouts_ok h
      exact ⟨by simp_all, by simp_all, hs.1, _, _, hs.2.1, hs.2.2.1, hs.2.2.2⟩

theorem cancelTask_ok {env : CallEnv} {t : Task} {out : StepOut}
    (h : cancelTask env t = .ok out) :
    t.buyer = env.caller ∧
      (t.status = TaskStatus.OPEN ∨ t.status = TaskStatus.QUOTED) ∧
      out = ⟨{ t with status := TaskStatus.CANCELLED, fundedAmount := 0, sellerBond := 0 },
             0, condOut t.buyer t.fundedAmount ++ condOut t.bondFunder t.sellerBond⟩ := by
  unfold cancelTask at h
  split_ifs at h with h1 h2
  simp only [Except.ok.injEq] at h
  push_neg at h2
  exact ⟨by simp_all, by tauto, h.symm⟩

theorem cancelForNonDelivery_ok {env : CallEnv} {policy : Policy} {t : Task} {out : StepOut}
    (h : cancelForNonDelivery env policy t = .ok out) :
    t.buyer = env.caller ∧ t.status = TaskStatus.ACTIVE ∧ t.fundedAmount ≠ 0 ∧
      t.submittedAt = 0 ∧ env.timestamp ≥ t.activatedAt + policy.deliveryWindowSec ∧
      out = ⟨{ t with
               fundedAmount := 0
               sellerBond := 0
               status := TaskStatus.CANCELLED
               settled := true }, 0,
             [(t.buyer, t.fundedAmount + t.sellerBond)]⟩ := by
  unfold cancelForNonDelivery at h
  split_ifs at h with h1 h2 h3 h4 h5
  simp only [Except.ok.injEq] at h
  exact ⟨by simp_all, by simp_all, h3, by simp_all, by omega, h.symm⟩

theorem openDispute_ok {env : CallEnv} {policy : Policy} {t : Task}
    {uri : String} {out : StepOut}
    (h : openDispute env policy t uri = .ok out) :
    t.status = TaskStatus.SUBMITTED ∧
      env.timestamp < t.submittedAt + policy.challengeWindowSec ∧
      out = ⟨{ t with disputedAt := env.timestamp, status := TaskStatus.DISPUTED }, 0, []⟩ := by
  unfold openDispute at h
  split_ifs at h with h1 h2 h3 h4 h5
  have hm := markDisputed_ok h
  exact ⟨by simp_all, by omega, hm.2.2⟩

theorem requiredSellerBond_congr (policy : Policy) {t t' : Task}
    (h : t'.quotedTotalPrice = t.quotedTotalPrice) :
    requiredSellerBond policy t' = requiredSellerBond policy t := by
  unfold requiredSellerBond
  rw [h]

theorem inv_settled_false {t : Task}
    (hI1 : t.settled = true → t.status = TaskStatus.SETTLED ∨ t.status = TaskStatus.CANCELLED)
    (h1 : t.status ≠ TaskStatus.SETTLED) (h2 : t.status ≠ TaskStatus.CANCELLED) :
    t.settled = false := by
  cases hs : t.settled
  · rfl
  · rcases hI1 hs with h | h <;> simp_all

theorem disputeSubmission_ok {env : CallEnv} {policy : Policy} {t : Task}
    {uri : String} {out : StepOut}
    (h : disputeSubmission env policy t uri = .ok out) :
    t.status = TaskStatus.SUBMITTED ∧ t.buyer = env.caller ∧
      out = ⟨{ t with disputedAt := env.timestamp, status := TaskStatus.DISPUTED }, 0, []⟩ := by
  unfold disputeSubmission at h
  split_ifs at h with h1 h2 h3
  have ho := openDispute_ok h
  exact ⟨by simp_all, by simp_all, ho.2.2⟩

theorem inv_step {pricing : Pricing} {policy : Policy} {env : CallEnv} {c : Call}
    {t : Task} {out : StepOut} (hcaller : env.caller ≠ 0)
    (h : step pricing policy env c t = .ok out) (hI : Inv policy t) :
    Inv policy out.task := by
  obtain ⟨hI1, hI2, hI3, hI4⟩ := hI
  cases c with
  | proposeQuote qu qp ex =>
    obtain ⟨hst, rfl⟩ := proposeQuote_ok h
    obtain ⟨hf0, hb0⟩ := hI2 hst
    have hsf := inv_settled_false hI1 (by simp [hst]) (by simp [hst])
    exact ⟨by simp [hsf], by simp, by simp [hf0, hb0], by simp⟩
  | acceptTask =>
    obtain ⟨hst, rfl⟩ := acceptTask_ok h
    obtain ⟨hf0, hb0⟩ := hI2 hst
    have hsf := inv_settled_false hI1 (by simp [hst]) (by simp [hst])
    exact ⟨by simp [hsf], by simp, by simp [hf0, hb0], by simp⟩
  | fundSellerBond amount =>
    obtain ⟨hst, hreq, hb0, hamt, rfl⟩ := fundSellerBond_ok h
    obtain ⟨hfd, _⟩ := hI3 hst
    have hsf := inv_settled_false hI1 (by simp [hst]) (by simp [hst])
    have hreq' : requiredSellerBond policy
        { t with sellerBond := amount, bondFunder := env.caller } =
        requiredSellerBond policy t := requiredSellerBond_congr policy (by simp)
    refine ⟨by simp [hsf], by simp [hst], ?_, by simp [hst]⟩
    intro _
    refine ⟨by simpa using hfd, Or.inr ⟨?_, ?_, ?_⟩⟩
    · simpa [hreq'] using hamt
    · simpa [hreq'] using hreq
    · simpa using hcaller
  | fundTask amount =>
    obtain ⟨hbuy, hst, hane, hf0, hamt, rfl⟩ := fundTask_ok h
    obtain ⟨_, hbd⟩ := hI3 hst
    have hsf := inv_settled_false hI1 (by simp [hst]) (by simp [hst])
    have hreq' : requiredSellerBond policy { t with fundedAmount := amount } =
        requiredSellerBond policy t := requiredSellerBond_congr policy (by simp)
    refine ⟨by simp [hsf], by simp [hst], ?_, by simp [hst]⟩
    intro _
    refine ⟨Or.inr (by simpa using hamt), ?_⟩
    rcases hbd with h0 | ⟨he, hr, hf⟩
    · exact Or.inl (by simpa using h0)
    · exact Or.inr ⟨by simpa [hreq'] using he, by simpa [hreq'] using hr, by simpa using hf⟩
  | acceptQuote =>
    obtain ⟨hst, hbuy, hfne, hfeq, hbimp, rfl⟩ := acceptQuote_ok h
    obtain ⟨_, hbd⟩ := hI3 hst
    have hsf := inv_settled_false hI1 (by simp [hst]) (by simp [hst])
    have hbond : t.sellerBond = requiredSellerBond policy t := by
      rcases hbd with h0 | ⟨he, _, _⟩
      · by_cases hr : requiredSellerBond policy t = 0
        · rw [h0, hr]
        · exact hbimp hr
      · exact he
    have hfunder : t.sellerBond ≠ 0 → t.bondFunder ≠ 0 := by
      intro hb
      rcases hbd with h0 | ⟨_, _, hf⟩
      · exact absurd h0 hb
      · exact hf
    have hreq' : requiredSellerBond policy
        { t with
          seller := env.agentOwner
          status := TaskStatus.ACTIVE
          activatedAt := env.timestamp } = requiredSellerBond policy t :=
      requiredSellerBond_congr policy (by simp)
    refine ⟨by simp [hsf], by simp, by simp, ?_⟩
    intro _
    exact ⟨by simpa using hfeq, by simpa using hfne, by simpa [hreq'] using hbond,
      by simpa using hfunder⟩
  | sellerCancelQuote =>
    obtain ⟨hst, hf0, rfl⟩ := sellerCancelQuote_ok h
    exact ⟨by simp, by simp, by simp, by simp⟩
  | submitDeliverable uri hash =>
    obtain ⟨hst, hsell, hfne, rfl⟩ := submitDeliverable_ok h
    obtain ⟨hfeq, _, hbeq, hfund⟩ := hI4 (Or.inl hst)
    have hsf := inv_settled_false hI1 (by simp [hst]) (by simp [hst])
    have hreq' : requiredSellerBond policy
        { t with
          artifactURI := uri
          artifactHash := hash
          submittedAt := env.timestamp
          status := TaskStatus.SUBMITTED } = requiredSellerBond policy t :=
      requiredSellerBond_congr policy (by simp)
    refine ⟨by simp [hsf], by simp, by simp, ?_⟩
    intro _
    exact ⟨by simpa using hfeq, by simpa using hfne, by simpa [hreq'] using hbeq,
      by simpa using hfund⟩
  | acceptSubmission =>
    obtain ⟨hst, hbuy, hset, rfl⟩ := acceptSubmission_ok h
    exact ⟨by simp [settleOut], by simp [settleOut], by simp [settleOut], by simp [settleOut]⟩
  | disputeSubmission uri =>
    obtain ⟨hst, hbuy, rfl⟩ := disputeSubmission_ok h
    obtain ⟨hfeq, hfne, hbeq, hfund⟩ := hI4 (Or.inr (Or.inl hst))
    have hsf := inv_settled_false hI1 (by simp [hst]) (by simp [hst])
    have hreq' : requiredSellerBond policy
        { t with disputedAt := env.timestamp, status := TaskStatus.DISPUTED } =
        requiredSellerBond policy t := requiredSellerBond_congr policy (by simp)
    refine ⟨by simp [hsf], by simp, by simp, ?_⟩
    intro _
    exact ⟨by simpa using hfeq, by simpa using hfne, by simpa [hreq'] using hbeq,
      by simpa using hfund⟩
  | settleAfterTimeout =>
    obtain ⟨hst, hdl, hset, rfl⟩ := settleAfterTimeout_ok h
    exact ⟨by simp [settleOut], by simp [settleOut], by simp [settleOut], by simp [settleOut]⟩
  | markDisputed =>
    obtain ⟨hmod, hst, rfl⟩ := markDisputed_ok h
    obtain ⟨hfeq, hfne, hbeq, hfund⟩ := hI4 (Or.inr (Or.inl hst))
    have hsf := inv_settled_false hI1 (by simp [hst]) (by simp [hst])
    have hreq' : requiredSellerBond policy
        { t with disputedAt := env.timestamp, status := TaskStatus.DISPUTED } =
        requiredSellerBond policy t := requiredSellerBond_congr policy (by simp)
    refine ⟨by simp [hsf], by simp, by simp, ?_⟩
    intro _
    exact ⟨by simpa using hfeq, by simpa using hfne, by simpa [hreq'] using hbeq,
      by simpa using hfund⟩
  | resolveDispute oc =>
    obtain ⟨hmod, hst, hset, bE, bB, hbE, hbB, rfl⟩ := resolveDispute_ok h
    exact ⟨by simp [settleOut], by simp [settleOut], by simp [settleOut], by simp [settleOut]⟩
  | settleAfterPostDisputeTimeout =>
    obtain ⟨hst, hpne, hdl, hset, rfl⟩ := settleAfterPostDisputeTimeout_ok h
    exact ⟨by simp [settleOut], by simp [settleOut], by simp [settleOut], by simp [settleOut]⟩
  | cancelTask =>
    obtain ⟨hbuy, hst, rfl⟩ := cancelTask_ok h
    exact ⟨by simp, by simp, by simp, by simp⟩
  | cancelForNonDelivery =>
    obtain ⟨hbuy, hst, hfne, hsub, hdl, rfl⟩ := cancelForNonDelivery_ok h
    exact ⟨by simp, by simp, by simp, by simp⟩

theorem step_conservation {pricing : Pricing} {policy : Policy} {env : CallEnv}
    {c : Call} {t : Task} {out : StepOut}
    (h : step pricing policy env c t = .ok out) :
    outSum out.tokensOut + marketHolds out.task = marketHolds t + out.tokensIn := by
  cases c with
  | proposeQuote qu qp ex =>
    obtain ⟨hst, rfl⟩ := proposeQuote_ok h
    simp [marketHolds, outSum, hst]
  | acceptTask =>
    obtain ⟨hst, rfl⟩ := acceptTask_ok h
    simp [marketHolds, outSum, hst]
  | fundSellerBond amount =>
    obtain ⟨hst, _, hb0, _, rfl⟩ := fundSellerBond_ok h
    simp [marketHolds, outSum, hst, hb0]
  | fundTask amount =>
    obtain ⟨_, hst, _, hf0, _, rfl⟩ := fundTask_ok h
    simp [marketHolds, outSum_nil, hst, hf0]
    omega
  | acceptQuote =>
    obtain ⟨hst, _, _, _, _, rfl⟩ := acceptQuote_ok h
    simp [marketHolds, outSum, hst]
  | sellerCancelQuote =>
    obtain ⟨hst, hf0, rfl⟩ := sellerCancelQuote_ok h
    simp [marketHolds, outSum_condOut, hst, hf0]
  | submitDeliverable uri hash =>
    obtain ⟨hst, _, _, rfl⟩ := submitDeliverable_ok h
    simp [marketHolds, outSum_nil, hst]
  | acceptSubmission =>
    obtain ⟨hst, _, _, rfl⟩ := acceptSubmission_ok h
    simp [marketHolds, settleOut, outSum_append, outSum_condOut, hst]
  | disputeSubmission uri =>
    obtain ⟨hst, _, rfl⟩ := disputeSubmission_ok h
    simp [marketHolds, outSum_nil, hst]
  | settleAfterTimeout =>
    obtain ⟨hst, _, _, rfl⟩ := settleAfterTimeout_ok h
    simp [marketHolds, settleOut, outSum_append, outSum_condOut, hst]
  | markDisputed =>
    obtain ⟨_, hst, rfl⟩ := markDisputed_ok h
    simp [marketHolds, outSum_nil, hst]
  | resolveDispute oc =>
    obtain ⟨_, hst, _, bE, bB, hbE, hbB, rfl⟩ := resolveDispute_ok h
    simp [marketHolds, settleOut, outSum_append, outSum_condOut, hst]
    omega
  | settleAfterPostDisputeTimeout =>
    obtain ⟨hst, _, _, _, rfl⟩ := settleAfterPostDisputeTimeout_ok h
    simp [marketHolds, settleOut, outSum_append, outSum_condOut, hst]
  | cancelTask =>
    obtain ⟨hbuy, hst, rfl⟩ := cancelTask_ok h
    rcases hst with hst | hst <;>
      simp [marketHolds, outSum_append, outSum_condOut, hst]
  | cancelForNonDelivery =>
    obtain ⟨_, hst, _, _, _, rfl⟩ := cancelForNonDelivery_ok h
    simp [marketHolds, outSum_single, hst]

/-- The state invariant holds for every freshly posted task. -/
theorem inv_postTask {env : CallEnv} {pricing : Pricing} {policy : Policy}
    {taskId listingId agentId : Nat} {uri : String} {units : Nat} {t : Task}
    (h : postTask env pricing taskId listingId agentId uri units = .ok t) :
    Inv policy t := by
  unfold postTask at h
  split_ifs at h with h1 h2 h3
  simp only [Except.ok.injEq] at h
  subst h
  exact ⟨by simp, by simp, by simp, by simp⟩

/-- The state invariant is preserved along every reachable trace. -/
theorem inv_reaches {pricing : Pricing} {policy : Policy} {t₀ t : Task} {tin tout : Nat}
    (h : Reaches pricing policy t₀ t tin tout) (hI : Inv policy t₀) : Inv policy t := by
  induction h with
  | refl => exact hI
  | call env c out prev hcaller hstep ih => exact inv_step hcaller hstep ih

/-- Token conservation along every reachable trace. -/
theorem reaches_conservation {pricing : Pricing} {policy : Policy}
    {t₀ t : Task} {tin tout : Nat}
    (h : Reaches pricing policy t₀ t tin tout) :
    tout + marketHolds t = marketHolds t₀ + tin := by
  induction h with
  | refl => omega
  | call env c out prev hcaller hstep ih =>
    have hc := step_conservation hstep
    omega

/-! ### Concrete fixtures used by the claim witnesses and counterexamples -/

def pricingW : Pricing :=
  { paymentToken := 1, basePrice := 100, unitType := 0, unitPrice := 10,
    minUnits := 1, maxUnits := 10, quoteRequired := false }

def policyW : Policy :=
  { challengeWindowSec := 3600, postDisputeWindowSec := 300,
    deliveryWindowSec := 7200, sellerBondBps := 0 }

def tActiveW : Task :=
  { id := 1, listingId := 1, agentId := 1, buyer := 2, seller := 3, paymentToken := 1,
    taskURI := "t", proposedUnits := 4, quotedUnits := 4, quotedTotalPrice := 140,
    quoteExpiry := 0, fundedAmount := 140, sellerBond := 0, bondFunder := 0,
    artifactURI := "", artifactHash := 0, activatedAt := 1000, submittedAt := 0,
    disputedAt := 0, status := TaskStatus.ACTIVE, settled := false }

def tSubmittedW : Task :=
  { tActiveW with artifactURI := "a", submittedAt := 20, status := TaskStatus.SUBMITTED }

def tDisputed3 : Task :=
  { tActiveW with
    quotedTotalPrice := 3
    fundedAmount := 3
    submittedAt := 20
    disputedAt := 30
    status := TaskStatus.DISPUTED }

def tSettledW : Task :=
  { tActiveW with status := TaskStatus.SETTLED, settled := true }

def tGlitch : Task := { tActiveW with settled := true }

def envSellerW : CallEnv :=
  { caller := 3, timestamp := 2000, agentOwner := 3, agentAuthorized := false,
    listingActive := true, callerIsDisputeModule := false, disputeModuleSet := true,
    recordOpened := false, callerIsMarket := false }

def envBuyerW : CallEnv :=
  { envSellerW with caller := 2, agentAuthorized := false }

def envModule : CallEnv :=
  { caller := 9, timestamp := 40, agentOwner := 3, agentAuthorized := false,
    listingActive := true, callerIsDisputeModule := true, disputeModuleSet := true,
    recordOpened := false, callerIsMarket := false }

def envBoundaryW : CallEnv := { envBuyerW with timestamp := 3620 }

/-! ### Claim theorems -/

/--
The settlement table of spec §4.3.2, written from the spec's words, used to
state C2 as a refinement of `resolveDispute`:
per outcome, the `(buyerEscrowPayout, buyerBondPayout)` pair.
-/
def specOutcomeTable (oc : DisputeOutcome) (funded bond : Nat) : Nat × Nat :=
  match oc with
  | DisputeOutcome.SELLER_WINS => (0, 0)
  | DisputeOutcome.BUYER_WINS => (funded, bond)
  | DisputeOutcome.SPLIT => (funded / 2, 0)
  | DisputeOutcome.CANCEL => (funded, 0)

/--
C2: for every DISPUTED task, `resolveDispute` computes the buyer payouts
exactly per the settlement table (SELLER_WINS: 0,0; BUYER_WINS: funded,bond;
SPLIT: ⌊funded/2⌋,0; CANCEL: funded,0) and settles with exactly those
payouts: buyer receives `bE+bB`, the snapshotted seller `funded−bE`, the
bond funder `bond−bB` (zero transfers skipped, as recorded in `settleOut`);
in SPLIT the floor division sends the odd residue to the seller
(`funded = 3` gives buyer 1, seller 2).
-/
theorem C2_resolveDispute_follows_settlement_table :
    ∀ (env : CallEnv) (t : Task) (oc : DisputeOutcome),
      env.callerIsDisputeModule = true → t.status = TaskStatus.DISPUTED →
      t.settled = false →
      resolveDispute env t oc =
        .ok (settleOut t (specOutcomeTable oc t.fundedAmount t.sellerBond).1
              (specOutcomeTable oc t.fundedAmount t.sellerBond).2) ∧
      (oc = DisputeOutcome.SPLIT → t.fundedAmount = 3 →
        (specOutcomeTable oc t.fundedAmount t.sellerBond).1 = 1 ∧
        t.fundedAmount - (specOutcomeTable oc t.fundedAmount t.sellerBond).1 = 2) := by
  intro env t oc hmod hst hset
  constructor
  · simp only [resolveDispute, hmod, hst]
    simp only [not_true_eq_false, if_false, ne_eq, not_false_eq_true, if_true]
    cases oc <;> simp only [specOutcomeTable] <;>
      exact settleWithPayouts_success _ _ _ _ hset
        (by first | exact Nat.zero_le _ | exact Nat.le_refl _ | exact Nat.div_le_self _ _)
        (by first | exact Nat.zero_le _ | exact Nat.le_refl _)
  · intro hoc hf
    subst hoc
    simp [specOutcomeTable, hf]

theorem C2_witness :
    resolveDispute envModule tDisputed3 DisputeOutcome.SPLIT =
      .ok (settleOut tDisputed3 1 0) ∧ tDisputed3.fundedAmount - 1 = 2 := by
  have h := C2_resolveDispute_follows_settlement_table envModule tDisputed3
    DisputeOutcome.SPLIT rfl rfl rfl
  exact ⟨h.1, (h.2 rfl rfl).2⟩

/--
C3: the seller snapshot taken at `acceptQuote` (the agent owner at that
instant) never changes once the task has left the pre-activation states;
`submitDeliverable` succeeds exactly when the caller equals the snapshotted
seller (independently of agent authorization); and every settlement pays
the seller-side escrow share to that snapshot (second entry of the
transfer list).
-/
theorem C3_seller_snapshot :
    (∀ (env : CallEnv) (policy : Policy) (t : Task) (out : StepOut),
      acceptQuote env policy t = .ok out → out.task.seller = env.agentOwner) ∧
    (∀ (pricing : Pricing) (policy : Policy) (env : CallEnv) (c : Call)
        (t : Task) (out : StepOut),
      step pricing policy env c t = .ok out →
      t.status ≠ TaskStatus.OPEN → t.status ≠ TaskStatus.QUOTED →
      out.task.seller = t.seller ∧ out.task.status ≠ TaskStatus.OPEN ∧
        out.task.status ≠ TaskStatus.QUOTED) ∧
    (∀ (env : CallEnv) (t : Task) (uri : String) (hash : Nat),
      (submitDeliverable env t uri hash).isOk = true ↔
        (t.status = TaskStatus.ACTIVE ∧ env.caller = t.seller ∧ t.fundedAmount ≠ 0)) ∧
    (∀ (t : Task) (bE bB : Nat) (p : SettlementPath) (out : StepOut),
      settleWithPayouts t bE bB p = .ok out →
      out.tokensOut = condOut t.buyer (bE + bB) ++
        condOut t.seller (t.fundedAmount - bE) ++
        condOut t.bondFunder (t.sellerBond - bB)) := by
  refine ⟨?_, ?_, ?_, ?_⟩
  · intro env policy t out h
    obtain ⟨_, _, _, _, _, rfl⟩ := acceptQuote_ok h
    simp
  · intro pricing policy env c t out h hOpen hQuoted
    cases c with
    | proposeQuote qu qp ex => exact absurd (proposeQuote_ok h).1 hOpen
    | acceptTask => exact absurd (acceptTask_ok h).1 hOpen
    | fundSellerBond amount => exact absurd (fundSellerBond_ok h).1 hQuoted
    | fundTask amount => exact absurd (fundTask_ok h).2.1 hQuoted
    | acceptQuote => exact absurd (acceptQuote_ok h).1 hQuoted
    | sellerCancelQuote => exact absurd (sellerCancelQuote_ok h).1 hQuoted
    | cancelTask =>
      rcases (cancelTask_ok h).2.1 with hst | hst
      · exact absurd hst hOpen
      · exact absurd hst hQuoted
    | submitDeliverable uri hash =>
      obtain ⟨_, _, _, rfl⟩ := submitDeliverable_ok h
      exact ⟨by simp, by simp, by simp⟩
    | acceptSubmission =>
      obtain ⟨_, _, _, rfl⟩ := acceptSubmission_ok h
      exact ⟨by simp [settleOut], by simp [settleOut], by simp [settleOut]⟩
    | disputeSubmission uri =>
      obtain ⟨_, _, rfl⟩ := disputeSubmission_ok h
      exact ⟨by simp, by simp, by simp⟩
    | settleAfterTimeout =>
      obtain ⟨_, _, _, rfl⟩ := settleAfterTimeout_ok h
      exact ⟨by simp [settleOut], by simp [settleOut], by simp [settleOut]⟩
    | markDisputed =>
      obtain ⟨_, _, rfl⟩ := markDisputed_ok h
      exact ⟨by simp, by simp, by simp⟩
    | resolveDispute oc =>
      obtain ⟨_, _, _, bE, bB, _, _, rfl⟩ := resolveDispute_ok h
      exact ⟨by simp [settleOut], by simp [settleOut], by simp [settleOut]⟩
    | settleAfterPostDisputeTimeout =>
      obtain ⟨_, _, _, _, rfl⟩ := settleAfterPostDisputeTimeout_ok h
      exact ⟨by simp [settleOut], by simp [settleOut], by simp [settleOut]⟩
    | cancelForNonDelivery =>
      obtain ⟨_, _, _, _, _, rfl⟩ := cancelForNonDelivery_ok h
      exact ⟨by simp, by simp, by simp⟩
  · intro env t uri hash
    constructor
    · intro hOk
      cases hcall : submitDeliverable env t uri hash with
      | error e => rw [hcall] at hOk; simp [Except.isOk, Except.toBool] at hOk
      | ok out =>
        obtain ⟨h1, h2, h3, _⟩ := submitDeliverable_ok hcall
        exact ⟨h1, h2, h3⟩
    · intro ⟨h1, h2, h3⟩
      simp [submitDeliverable, h1, h2, h3, Except.isOk, Except.toBool]
  · intro t bE bB p out h
    obtain ⟨_, _, _, rfl⟩ := settleWithPayouts_ok h
    simp [settleOut]

/-- The `StepOut` produced by `markDisputed envModule tSubmittedW`. -/
def outMarkDisputedW : StepOut :=
  ⟨{ tSubmittedW with
     disputedAt := envModule.timestamp
     status := TaskStatus.DISPUTED }, 0, []⟩

theorem C3_witness :
    (submitDeliverable envSellerW tActiveW "a" 0).isOk = true ∧
    outMarkDisputedW.task.seller = tSubmittedW.seller := by
  refine ⟨(C3_seller_snapshot.2.2.1 envSellerW tActiveW "a" 0).mpr
    ⟨rfl, rfl, by decide⟩, ?_⟩
  have h := C3_seller_snapshot.2.1 pricingW policyW envModule Call.markDisputed
    tSubmittedW outMarkDisputedW rfl (by decide) (by decide)
  exact h.1

/--
C6: the `settled` flag never transitions from `true` to `false` on any
successful transition, and once a task is SETTLED or CANCELLED every one of
the fifteen mutating market transitions reverts.
-/
theorem C6_terminal_states :
    (∀ (pricing : Pricing) (policy : Policy) (env : CallEnv) (c : Call)
        (t : Task) (out : StepOut),
      step pricing policy env c t = .ok out → t.settled = true →
      out.task.settled = true) ∧
    (∀ (pricing : Pricing) (policy : Policy) (env : CallEnv) (c : Call) (t : Task),
      t.status = TaskStatus.SETTLED ∨ t.status = TaskStatus.CANCELLED →
      ∃ e, step pricing policy env c t = .error e) := by
  constructor
  · intro pricing policy env c t out h hset
    cases c with
    | proposeQuote qu qp ex =>
      obtain ⟨_, rfl⟩ := proposeQuote_ok h
      simpa using hset
    | acceptTask =>
      obtain ⟨_, rfl⟩ := acceptTask_ok h
      simpa using hset
    | fundSellerBond amount =>
      obtain ⟨_, _, _, _, rfl⟩ := fundSellerBond_ok h
      simpa using hset
    | fundTask amount =>
      obtain ⟨_, _, _, _, _, rfl⟩ := fundTask_ok h
      simpa using hset
    | acceptQuote =>
      obtain ⟨_, _, _, _, _, rfl⟩ := acceptQuote_ok h
      simpa using hset
    | sellerCancelQuote =>
      obtain ⟨_, _, rfl⟩ := sellerCancelQuote_ok h
      simpa using hset
    | submitDeliverable uri hash =>
      obtain ⟨_, _, _, rfl⟩ := submitDeliverable_ok h
      simpa using hset
    | acceptSubmission =>
      obtain ⟨_, _, _, rfl⟩ := acceptSubmission_ok h
      simp [settleOut]
    | disputeSubmission uri =>
      obtain ⟨_, _, rfl⟩ := disputeSubmission_ok h
      simpa using hset
    | settleAfterTimeout =>
      obtain ⟨_, _, _, rfl⟩ := settleAfterTimeout_ok h
      simp [settleOut]
    | markDisputed =>
      obtain ⟨_, _, rfl⟩ := markDisputed_ok h
      simpa using hset
    | resolveDispute oc =>
      obtain ⟨_, _, _, bE, bB, _, _, rfl⟩ := resolveDispute_ok h
      simp [settleOut]
    | settleAfterPostDisputeTimeout =>
      obtain ⟨_, _, _, _, rfl⟩ := settleAfterPostDisputeTimeout_ok h
      simp [settleOut]
    | cancelTask =>
      obtain ⟨_, _, rfl⟩ := cancelTask_ok h
      simpa using hset
    | cancelForNonDelivery =>
      obtain ⟨_, _, _, _, _, rfl⟩ := cancelForNonDelivery_ok h
      simp
  · intro pricing policy env c t hst
    cases hcall : step pricing policy env c t with
    | error e => exact ⟨e, rfl⟩
    | ok out =>
      exfalso
      cases c with
      | proposeQuote qu qp ex =>
        have hs := (proposeQuote_ok hcall).1
        rcases hst with h | h <;> rw [h] at hs <;> simp at hs
      | acceptTask =>
        have hs := (acceptTask_ok hcall).1
        rcases hst with h | h <;> rw [h] at hs <;> simp at hs
      | fundSellerBond amount =>
        have hs := (fundSellerBond_ok hcall).1
        rcases hst with h | h <;> rw [h] at hs <;> simp at hs
      | fundTask amount =>
        have hs := (fundTask_ok hcall).2.1
        rcases hst with h | h <;> rw [h] at hs <;> simp at hs
      | acceptQuote =>
        have hs := (acceptQuote_ok hcall).1
        rcases hst with h | h <;> rw [h] at hs <;> simp at hs
      | sellerCancelQuote =>
        have hs := (sellerCancelQuote_ok hcall).1
        rcases hst with h | h <;> rw [h] at hs <;> simp at hs
      | submitDeliverable uri hash =>
        have hs := (submitDeliverable_ok hcall).1
        rcases hst with h | h <;> rw [h] at hs <;> simp at hs
      | acceptSubmission =>
        have hs := (acceptSubmission_ok hcall).1
        rcases hst with h | h <;> rw [h] at hs <;> simp at hs
      | disputeSubmission uri =>
        have hs := (disputeSubmission_ok hcall).1
        rcases hst with h | h <;> rw [h] at hs <;> simp at hs
      | settleAfterTimeout =>
        have hs := (settleAfterTimeout_ok hcall).1
        rcases hst with h | h <;> rw [h] at hs <;> simp at hs
      | markDisputed =>
        have hs := (markDisputed_ok hcall).2.1
        rcases hst with h | h <;> rw [h] at hs <;> simp at hs
      | resolveDispute oc =>
        have hs := (resolveDispute_ok hcall).2.1
        rcases hst with h | h <;> rw [h] at hs <;> simp at hs
      | settleAfterPostDisputeTimeout =>
        have hs := (settleAfterPostDisputeTimeout_ok hcall).1
        rcases hst with h | h <;> rw [h] at hs <;> simp at hs
      | cancelTask =>
        have hs := (cancelTask_ok hcall).2.1
        rcases hst with h | h <;> rw [h] at hs <;>
          rcases hs with hs | hs <;> simp at hs
      | cancelForNonDelivery =>
        have hs := (cancelForNonDelivery_ok hcall).2.1
        rcases hst with h | h <;> rw [h] at hs <;> simp at hs

theorem C6_witness :
    ({ tGlitch with
       artifactURI := "a"
       artifactHash := 0
       submittedAt := envSellerW.timestamp
       status := TaskStatus.SUBMITTED } : Task).settled = true ∧
    ∃ e, step pricingW policyW envBuyerW Call.acceptSubmission tSettledW = .error e := by
  constructor
  · exact C6_terminal_states.1 pricingW policyW envSellerW
      (Call.submitDeliverable "a" 0) tGlitch
      ⟨{ tGlitch with
         artifactURI := "a"
         artifactHash := 0
         submittedAt := envSellerW.timestamp
         status := TaskStatus.SUBMITTED }, 0, []⟩ rfl rfl
  · exact C6_terminal_states.2 pricingW policyW envBuyerW Call.acceptSubmission
      tSettledW (Or.inl rfl)

/--
C9: once `now ≥ submittedAt + challengeWindowSec`, `openDispute` on the
dispute module fails (strict less-than is required, so it already fails at
the deadline itself), while `settleAfterTimeout` succeeds exactly from that
same instant onward on a SUBMITTED task; before the deadline the roles are
reversed.
-/
theorem C9_challenge_window_boundary :
    ∀ (env : CallEnv) (policy : Policy) (t : Task) (uri : String),
      (env.timestamp ≥ t.submittedAt + policy.challengeWindowSec →
        (openDispute env policy t uri).isOk = false) ∧
      (t.status = TaskStatus.SUBMITTED → t.settled = false →
        env.timestamp ≥ t.submittedAt + policy.challengeWindowSec →
        (settleAfterTimeout env policy t).isOk = true) ∧
      (env.timestamp < t.submittedAt + policy.challengeWindowSec →
        (settleAfterTimeout env policy t).isOk = false) ∧
      (t.status = TaskStatus.SUBMITTED → uri.utf8ByteSize ≤ MAX_URI_LENGTH →
        env.recordOpened = false →
        (env.callerIsMarket = true ∨ t.buyer = env.caller) →
        env.timestamp < t.submittedAt + policy.challengeWindowSec →
        (openDispute env policy t uri).isOk = true) := by
  intro env policy t uri
  refine ⟨?_, ?_, ?_, ?_⟩
  · intro hdl
    simp only [openDispute, markDisputed]
    split_ifs <;> first | simp [Except.isOk, Except.toBool] | omega
  · intro hst hset hdl
    simp only [settleAfterTimeout]
    split_ifs with h1 h2
    · simp_all
    · omega
    · rw [settleWithPayouts_success t 0 0 _ hset (Nat.zero_le _) (Nat.zero_le _)]
      rfl
  · intro hdl
    simp only [settleAfterTimeout, settleWithPayouts]
    split_ifs <;> first | simp [Except.isOk, Except.toBool] | omega
  · intro hst hlen hrec hwho hdl
    simp only [openDispute, markDisputed]
    split_ifs <;>
      first
        | rfl
        | omega
        | simp_all
        | (rcases hwho with hw | hw <;> simp_all)

theorem C9_witness :
    envBoundaryW.timestamp = tSubmittedW.submittedAt + policyW.challengeWindowSec ∧
    (openDispute envBoundaryW policyW tSubmittedW "d").isOk = false ∧
    (settleAfterTimeout envBoundaryW policyW tSubmittedW).isOk = true := by
  have h := C9_challenge_window_boundary envBoundaryW policyW tSubmittedW "d"
  exact ⟨rfl, h.1 (by decide), h.2.1 rfl rfl (by decide)⟩

def envSellerAtDeadline : CallEnv := { envSellerW with timestamp := 8200 }

def envBuyerAtDeadline : CallEnv := { envBuyerW with timestamp := 8200 }

/--
C4 (code evaluation at the failing input): at the exact instant
`now = activatedAt + deliveryWindowSec` the code still accepts
`submitDeliverable` — the contract has no delivery-window check at all —
while `cancelForNonDelivery` also succeeds at the same instant, contrary to
the claim that submission fails from that instant on.
-/
theorem C4_submission_not_window_gated :
    envSellerAtDeadline.timestamp = tActiveW.activatedAt + policyW.deliveryWindowSec ∧
    (submitDeliverable envSellerAtDeadline tActiveW "late" 0).isOk = true ∧
    (cancelForNonDelivery envBuyerAtDeadline policyW tActiveW).isOk = true :=
  ⟨rfl, rfl, rfl⟩

/--
C7 (code evaluation at the failing input): the market stores `taskURI` and
`artifactURI` without any length check — `postTask` and `submitDeliverable`
succeed for every URI whatsoever (in particular for URIs longer than
`MAX_URI_LENGTH = 2048` bytes), contrary to the claim that every operation
that stores a URI rejects input longer than 2048 bytes.
-/
theorem C7_market_uris_not_length_checked :
    ∀ uri : String,
      (∃ t, postTask envBuyerW pricingW 1 1 1 uri 4 = .ok t ∧ t.taskURI = uri) ∧
      (∃ out, submitDeliverable envSellerW tActiveW uri 0 = .ok out ∧
        out.task.artifactURI = uri) := by
  intro uri
  exact ⟨⟨_, rfl, rfl⟩, ⟨_, rfl, rfl⟩⟩

def tZeroQuote : Task :=
  { id := 1, listingId := 1, agentId := 1, buyer := 2, seller := 0, paymentToken := 1,
    taskURI := "t", proposedUnits := 1, quotedUnits := 1, quotedTotalPrice := 0,
    quoteExpiry := 0, fundedAmount := 0, sellerBond := 0, bondFunder := 0,
    artifactURI := "", artifactHash := 0, activatedAt := 0, submittedAt := 0,
    disputedAt := 0, status := TaskStatus.QUOTED, settled := false }

/--
C8 counterexample: on a quoted task with `quotedTotalPrice = 0`, funding
with amount 0 reverts with "amount zero", so the zero-price lifecycle
claimed by the spec cannot proceed.
-/
theorem C8_counterexample :
    tZeroQuote.quotedTotalPrice = 0 ∧ tZeroQuote.status = TaskStatus.QUOTED ∧
    fundTask envBuyerW policyW tZeroQuote 0 = .error "TaskMarket: amount zero" :=
  ⟨rfl, rfl, rfl⟩

/--
C8 amended: a task quoted at total price zero can never be funded
(`fundTask` reverts for every amount) and never activated (`acceptQuote`
reverts while unfunded), so a zero-price task cannot proceed to settlement.
-/
theorem C8_zero_price_cannot_proceed :
    ∀ (env : CallEnv) (policy : Policy) (t : Task) (amount : Nat),
      t.quotedTotalPrice = 0 →
      (fundTask env policy t amount).isOk = false ∧
      (t.fundedAmount = 0 → (acceptQuote env policy t).isOk = false) := by
  intro env policy t amount hq
  constructor
  · simp only [fundTask]
    split_ifs <;> simp_all [Except.isOk, Except.toBool]
  · intro hf
    simp only [acceptQuote]
    split_ifs <;> simp_all [Except.isOk, Except.toBool]

theorem C8_witness :
    (fundTask envBuyerW policyW tZeroQuote 0).isOk = false ∧
    (acceptQuote envBuyerW policyW tZeroQuote).isOk = false := by
  have h := C8_zero_price_cannot_proceed envBuyerW policyW tZeroQuote 0 rfl
  exact ⟨h.1, h.2 rfl⟩

def pricingZeroBond : Pricing :=
  { paymentToken := 1, basePrice := 100, unitType := 0, unitPrice := 0,
    minUnits := 1, maxUnits := 1, quoteRequired := false }

def policyTinyBps : Policy :=
  { challengeWindowSec := 3600, postDisputeWindowSec := 0,
    deliveryWindowSec := 7200, sellerBondBps := 1 }

def tOpenC : Task :=
  { id := 1, listingId := 1, agentId := 1, buyer := 2, seller := 0, paymentToken := 1,
    taskURI := "t", proposedUnits := 1, quotedUnits := 0, quotedTotalPrice := 0,
    quoteExpiry := 0, fundedAmount := 0, sellerBond := 0, bondFunder := 0,
    artifactURI := "", artifactHash := 0, activatedAt := 0, submittedAt := 0,
    disputedAt := 0, status := TaskStatus.OPEN, settled := false }

def envAgentC : CallEnv :=
  { caller := 3, timestamp := 50, agentOwner := 3, agentAuthorized := true,
    listingActive := true, callerIsDisputeModule := false, disputeModuleSet := false,
    recordOpened := false, callerIsMarket := false }

def envBuyerC : CallEnv := { envAgentC with caller := 2, agentAuthorized := false }

def tActiveZeroBond : Task :=
  { tOpenC with
    quotedUnits := 1
    quotedTotalPrice := 100
    fundedAmount := 100
    seller := 3
    status := TaskStatus.ACTIVE
    activatedAt := 50 }

/--
C5 counterexample: with `sellerBondBps = 1` and a quoted total of 100, the
required bond floors to `⌊100·1/10000⌋ = 0`, so the task reaches ACTIVE by
a legitimate call sequence with `sellerBond = 0` (which does equal the
floor) but `bondFunder = 0` — refuting the claim that `bondFunder` is
non-zero whenever `sellerBondBps > 0` in an activated state.
-/
theorem C5_counterexample :
    Reaches pricingZeroBond policyTinyBps tOpenC tActiveZeroBond 100 0 ∧
    0 < policyTinyBps.sellerBondBps ∧
    tActiveZeroBond.status = TaskStatus.ACTIVE ∧
    tActiveZeroBond.sellerBond =
      tActiveZeroBond.quotedTotalPrice * policyTinyBps.sellerBondBps / 10000 ∧
    tActiveZeroBond.bondFunder = 0 := by
  refine ⟨?_, by decide, rfl, by decide, rfl⟩
  exact Reaches.call envBuyerC Call.acceptQuote ⟨tActiveZeroBond, 0, []⟩
    (Reaches.call envBuyerC (Call.fundTask 100)
      ⟨{ tOpenC with
         quotedUnits := 1
         quotedTotalPrice := 100
         fundedAmount := 100
         status := TaskStatus.QUOTED }, 100, []⟩
      (Reaches.call envAgentC Call.acceptTask
        ⟨{ tOpenC with
           quotedUnits := 1
           quotedTotalPrice := 100
           status := TaskStatus.QUOTED }, 0, []⟩
        (Reaches.refl tOpenC) (by decide) rfl)
      (by decide) rfl)
    (by decide) rfl

/--
C5 amended: for every reachable task of a listing with `sellerBondBps > 0`,
whenever the status is ACTIVE, SUBMITTED or DISPUTED the seller bond equals
`⌊quotedTotalPrice · sellerBondBps / 10000⌋`, and whenever that floor is
non-zero the bond funder is a non-zero address.
-/
theorem C5_bond_invariant :
    ∀ (pricing : Pricing) (policy : Policy) (t₀ t : Task) (tin tout : Nat),
      Inv policy t₀ → Reaches pricing policy t₀ t tin tout →
      0 < policy.sellerBondBps →
      (t.status = TaskStatus.ACTIVE ∨ t.status = TaskStatus.SUBMITTED ∨
        t.status = TaskStatus.DISPUTED) →
      t.sellerBond = t.quotedTotalPrice * policy.sellerBondBps / 10000 ∧
      (t.quotedTotalPrice * policy.sellerBondBps / 10000 ≠ 0 → t.bondFunder ≠ 0) := by
  intro pricing policy t₀ t tin tout hI hR hbps hst
  obtain ⟨_, _, _, h4⟩ := inv_reaches hR hI
  obtain ⟨hfeq, hfne, hbeq, hfund⟩ := h4 hst
  have hreq : requiredSellerBond policy t =
      t.quotedTotalPrice * policy.sellerBondBps / 10000 := by
    unfold requiredSellerBond
    rw [if_neg (by omega)]
  refine ⟨hbeq.trans hreq, fun hz => hfund ?_⟩
  rw [hbeq, hreq]
  exact hz

def pricingBondW : Pricing :=
  { paymentToken := 1, basePrice := 120, unitType := 0, unitPrice := 0,
    minUnits := 1, maxUnits := 1, quoteRequired := false }

def policyBondW : Policy :=
  { challengeWindowSec := 3600, postDisputeWindowSec := 0,
    deliveryWindowSec := 7200, sellerBondBps := 5000 }

def tActiveBondW : Task :=
  { tOpenC with
    quotedUnits := 1
    quotedTotalPrice := 120
    sellerBond := 60
    bondFunder := 3
    fundedAmount := 120
    seller := 3
    status := TaskStatus.ACTIVE
    activatedAt := 50 }

theorem C5_witness :
    tActiveBondW.sellerBond =
      tActiveBondW.quotedTotalPrice * policyBondW.sellerBondBps / 10000 ∧
    tActiveBondW.bondFunder ≠ 0 := by
  have hre : Reaches pricingBondW policyBondW tOpenC tActiveBondW 180 0 :=
    Reaches.call envBuyerC Call.acceptQuote ⟨tActiveBondW, 0, []⟩
      (Reaches.call envBuyerC (Call.fundTask 120)
        ⟨{ tOpenC with
           quotedUnits := 1
           quotedTotalPrice := 120
           sellerBond := 60
           bondFunder := 3
           fundedAmount := 120
           status := TaskStatus.QUOTED }, 120, []⟩
        (Reaches.call envAgentC (Call.fundSellerBond 60)
          ⟨{ tOpenC with
             quotedUnits := 1
             quotedTotalPrice := 120
             sellerBond := 60
             bondFunder := 3
             status := TaskStatus.QUOTED }, 60, []⟩
          (Reaches.call envAgentC Call.acceptTask
            ⟨{ tOpenC with
               quotedUnits := 1
               quotedTotalPrice := 120
               status := TaskStatus.QUOTED }, 0, []⟩
            (Reaches.refl tOpenC) (by decide) rfl)
          (by decide) rfl)
        (by decide) rfl)
      (by decide) rfl
  have h := C5_bond_invariant pricingBondW policyBondW tOpenC tActiveBondW 180 0
    (by unfold Inv; decide) hre (by decide) (Or.inl rfl)
  exact ⟨h.1, h.2 (by decide)⟩

/--
C1: per-transition token conservation — on every successful transition the
amount pushed out plus the custody still held afterwards equals the custody
held before plus the amount pulled in (so no transition pushes out more than
the market holds for the task), and along any trace of successful calls the
totals balance; in particular a task taken from a fresh (custody-free) state
to a terminal state has moved exactly as many tokens out as in.
-/
theorem C1_token_conservation :
    (∀ (pricing : Pricing) (policy : Policy) (env : CallEnv) (c : Call)
        (t : Task) (out : StepOut),
      step pricing policy env c t = .ok out →
      outSum out.tokensOut + marketHolds out.task = marketHolds t + out.tokensIn) ∧
    (∀ (pricing : Pricing) (policy : Policy) (env : CallEnv) (c : Call)
        (t : Task) (out : StepOut),
      step pricing policy env c t = .ok out →
      outSum out.tokensOut ≤ marketHolds t + out.tokensIn) ∧
    (∀ (pricing : Pricing) (policy : Policy) (t₀ t : Task) (tin tout : Nat),
      Reaches pricing policy t₀ t tin tout →
      tout + marketHolds t = marketHolds t₀ + tin) ∧
    (∀ (pricing : Pricing) (policy : Policy) (t₀ t : Task) (tin tout : Nat),
      Reaches pricing policy t₀ t tin tout → marketHolds t₀ = 0 →
      t.status = TaskStatus.SETTLED ∨ t.status = TaskStatus.CANCELLED →
      tin = tout) := by
  refine ⟨?_, ?_, ?_, ?_⟩
  · intro pricing policy env c t out h
    exact step_conservation h
  · intro pricing policy env c t out h
    have := step_conservation h
    omega
  · intro pricing policy t₀ t tin tout h
    exact reaches_conservation h
  · intro pricing policy t₀ t tin tout h h0 hterm
    have hc := reaches_conservation h
    have hz : marketHolds t = 0 := by
      rcases hterm with ht | ht <;> simp [marketHolds, ht]
    omega

def tSubC1 : Task :=
  { tActiveZeroBond with
    artifactURI := "a"
    submittedAt := 60
    status := TaskStatus.SUBMITTED }

theorem C1_witness :
    outSum (settleOut tSubC1 0 0).tokensOut + marketHolds (settleOut tSubC1 0 0).task =
      marketHolds tSubC1 + (settleOut tSubC1 0 0).tokensIn := by
  exact C1_token_conservation.1 pricingZeroBond policyTinyBps envBuyerC
    Call.acceptSubmission tSubC1 (settleOut tSubC1 0 0) rfl

/-- The three revert messages of the `_settleWithPayouts` guards. -/
def settlementGuardErrors : List String :=
  ["TaskMarket: already settled", "TaskMarket: buyer payout exceeds escrow",
   "TaskMarket: buyer payout exceeds bond"]

theorem error_ne_of_msg {α : Type} {s₁ s₂ : String} (h : s₁ ≠ s₂) :
    (Except.error s₁ : Except String α) ≠ .error s₂ := by
  intro hc
  injection hc with h'
  exact h h'

theorem settleWithPayouts_no_guard {t : Task} {bE bB : Nat} {p : SettlementPath}
    (hset : t.settled = false) (h1 : bE ≤ t.fundedAmount) (h2 : bB ≤ t.sellerBond)
    (e : String) : settleWithPayouts t bE bB p ≠ .error e := by
  rw [settleWithPayouts_success t bE bB p hset h1 h2]
  simp

/--
C10: starting from any task satisfying the state invariant (established by
`postTask` and preserved by every transition), none of the four settling
entry points (`acceptSubmission`, `settleAfterTimeout`,
`settleAfterPostDisputeTimeout`, `resolveDispute`) can ever hit the three
internal guards of `_settleWithPayouts`: each caller requires a non-terminal
status (where `settled` is still false) and passes payouts bounded by the
task's own pools.
-/
theorem C10_settlement_guards_unreachable :
    (∀ (policy : Policy) (env : CallEnv) (t : Task),
      Inv policy t → ∀ e ∈ settlementGuardErrors,
        acceptSubmission env t ≠ .error e ∧
        settleAfterTimeout env policy t ≠ .error e ∧
        settleAfterPostDisputeTimeout env policy t ≠ .error e ∧
        (∀ oc, resolveDispute env t oc ≠ .error e)) ∧
    (∀ (pricing : Pricing) (policy : Policy) (env : CallEnv) (c : Call)
        (t : Task) (out : StepOut), env.caller ≠ 0 →
      step pricing policy env c t = .ok out → Inv policy t → Inv policy out.task) ∧
    (∀ (env : CallEnv) (pricing : Pricing) (policy : Policy)
        (taskId listingId agentId : Nat) (uri : String) (units : Nat) (t : Task),
      postTask env pricing taskId listingId agentId uri units = .ok t →
      Inv policy t) := by
  refine ⟨?_, ?_, ?_⟩
  · intro policy env t hI e he
    have hterm := hI.1
    simp only [settlementGuardErrors, List.mem_cons, List.not_mem_nil, or_false] at he
    refine ⟨?_, ?_, ?_, ?_⟩
    · simp only [acceptSubmission]
      split_ifs <;>
        first
          | (rcases he with rfl | rfl | rfl <;> exact error_ne_of_msg (by decide))
          | (refine settleWithPayouts_no_guard (inv_settled_false hterm ?_ ?_)
              (Nat.zero_le _) (Nat.zero_le _) e <;> simp_all)
    · simp only [settleAfterTimeout]
      split_ifs <;>
        first
          | (rcases he with rfl | rfl | rfl <;> exact error_ne_of_msg (by decide))
          | (refine settleWithPayouts_no_guard (inv_settled_false hterm ?_ ?_)
              (Nat.zero_le _) (Nat.zero_le _) e <;> simp_all)
    · simp only [settleAfterPostDisputeTimeout]
      split_ifs <;>
        first
          | (rcases he with rfl | rfl | rfl <;> exact error_ne_of_msg (by decide))
          | (refine settleWithPayouts_no_guard (inv_settled_false hterm ?_ ?_)
              (Nat.zero_le _) (Nat.zero_le _) e <;> simp_all)
    · intro oc
      simp only [resolveDispute]
      split_ifs <;>
        first
          | (rcases he with rfl | rfl | rfl <;> exact error_ne_of_msg (by decide))
          | (cases oc with
              | SELLER_WINS =>
                exact settleWithPayouts_no_guard
                  (inv_settled_false hterm (by simp_all) (by simp_all))
                  (Nat.zero_le _) (Nat.zero_le _) e
              | BUYER_WINS =>
                exact settleWithPayouts_no_guard
                  (inv_settled_false hterm (by simp_all) (by simp_all))
                  (Nat.le_refl _) (Nat.le_refl _) e
              | SPLIT =>
                exact settleWithPayouts_no_guard
                  (inv_settled_false hterm (by simp_all) (by simp_all))
                  (Nat.div_le_self _ _) (Nat.zero_le _) e
              | CANCEL =>
                exact settleWithPayouts_no_guard
                  (inv_settled_false hterm (by simp_all) (by simp_all))
                  (Nat.le_refl _) (Nat.zero_le _) e)
  · intro pricing policy env c t out hcaller h hI
    exact inv_step hcaller h hI
  · intro env pricing policy taskId listingId agentId uri units t h
    exact inv_postTask h

theorem C10_witness :
    acceptSubmission envBuyerW tSubmittedW ≠ .error "TaskMarket: already settled" := by
  exact ((C10_settlement_guards_unreachable.1 policyW envBuyerW tSubmittedW
    (by unfold Inv; decide) "TaskMarket: already settled" (by simp [settlementGuardErrors]))).1

end MoesTavern
